import Mathlib

/-!
# Shallow embedding of `packages/rust-engine/src/lib.rs` (MEV sandwich-attack detector)

The Rust source is a single file: a `Transaction` record type, a `SandwichAttack`
output record, a hard-coded Uniswap V2 router address, a path-matching heuristic
`a_b_a_path_matches`, and the exported entry point `detect_mev` (JSON decode, an
unused hash-indexed map, a triple nested loop, JSON encode).

Modelling conventions:
* `H160` addresses and `U256` amounts are modelled as `Nat`; the detector only
  uses equality and order on them, which agree with the unsigned machine types.
* Rust `&str` values are modelled as Lean `String` (one `Char` per byte; all the
  data the detector slices is ASCII hex in the intended use, and the length
  arithmetic that matters here is independent of the encoding).
* Partiality from panics is explicit: Rust `usize` subtraction and string
  slicing are modelled as `Option`-valued operations (`none` = panic), and the
  panic propagates through `a_b_a_path_matches` and the loops of `detect_mev`.
  (In release builds the subtraction wraps instead of panicking, but the
  subsequent slice bounds check then panics at exactly the same inputs, so
  `none` marks the same set of panicking inputs either way.)
* The `serde_json` decode of the input string and the encode of the output are
  external library code, out of scope per the spec (§1, §6); the decode result
  is abstracted as the `Option (List Transaction)` it produces (`none` = decode
  failure), and the output is kept at the record level (the empty list is the
  list that serializes to `"[]"`).
-/

namespace MevDetector

/-- `struct Transaction` from the source: `hash`, `sender` (wire name `from`),
`to` (optional: `None` for contract creation), `value`, `data`, `gas_price`
(wire name `gasPrice`). -/
structure Transaction where
  hash : String
  sender : Nat
  «to» : Option Nat
  value : Nat
  data : String
  gas_price : Nat
deriving DecidableEq, Repr

/-- `struct SandwichAttack` from the source: the four output fields. -/
structure SandwichAttack where
  victim_tx_hash : String
  attacker : Nat
  frontrun_tx_hash : String
  backrun_tx_hash : String
deriving DecidableEq, Repr

/-- `const UNISWAP_V2_ROUTER: H160` — the 20 bytes
`7a 25 09 56 80 8f 5c 3d 7c 48 53 74 0a 6d 7e 44 4e 9a ce d8` read as a
big-endian number. -/
def UNISWAP_V2_ROUTER : Nat := 0x7a250956808f5c3d7c4853740a6d7e444e9aced8

/-- Rust `usize` subtraction `a - b`: panics on underflow (debug builds; in
release it wraps, and the wrapped huge value then fails the very next slice
bounds check, panicking at the same inputs). `none` models the panic. -/
def usizeSub (a b : Nat) : Option Nat :=
  if b ≤ a then some (a - b) else none

/-- The characters of `s` in positions `[a, b)` (total helper used by the
checked slice below). -/
def strTake (s : String) (a b : Nat) : String :=
  String.mk ((s.data.drop a).take (b - a))

/-- Rust string slicing `&s[a..b]`: panics (`none`) unless `a ≤ b ≤ s.len()`. -/
def strSlice (s : String) (a b : Nat) : Option String :=
  if a ≤ b ∧ b ≤ s.length then some (strTake s a b) else none

/-- `fn a_b_a_path_matches(frontrun_data: &str, backrun_data: &str) -> bool`
from the source, with the panic made explicit as `none`:
guard `len < 74` on either string returns `false`; otherwise the last two
64-character slots of each string are sliced at offsets `len - 128` and
`len - 64` (both subtractions and slices can panic) and compared reversed. -/
def a_b_a_path_matches (frontrun_data backrun_data : String) : Option Bool :=
  if frontrun_data.length < 74 ∨ backrun_data.length < 74 then
    some false
  else do
    let fa ← usizeSub frontrun_data.length 128
    let fm ← usizeSub frontrun_data.length 64
    let front_token_a ← strSlice frontrun_data fa fm
    let front_token_b ← strSlice frontrun_data fm frontrun_data.length
    let ba ← usizeSub backrun_data.length 128
    let bm ← usizeSub backrun_data.length 64
    let back_token_a ← strSlice backrun_data ba bm
    let back_token_b ← strSlice backrun_data bm backrun_data.length
    pure (front_token_a == back_token_b && front_token_b == back_token_a)

/-- The `SandwichAttack` literal pushed in the innermost loop of the source:
victim hash, front-runner's sender as attacker, front-run hash, back-run hash. -/
def mkAttack (v f b : Transaction) : SandwichAttack :=
  { victim_tx_hash := v.hash
    attacker := f.sender
    frontrun_tx_hash := f.hash
    backrun_tx_hash := b.hash }

/-- Body of the innermost loop of `detect_mev` for one `potential_backrun` `b`:
`continue` (emit nothing) unless `b.sender == f.sender` and
`b.gas_price < v.gas_price`; then call the path heuristic (which may panic) and
push one attack when it holds. -/
def checkBackrun (v f b : Transaction) : Option (List SandwichAttack) :=
  if b.sender ≠ f.sender ∨ v.gas_price ≤ b.gas_price then
    some []
  else
    match a_b_a_path_matches f.data b.data with
    | none => none
    | some true => some [mkAttack v f b]
    | some false => some []

/-- The innermost loop of `detect_mev`: iterate `potential_backrun` over the
whole batch, concatenating the pushes in iteration order; a panic anywhere
aborts the whole call. -/
def innerLoop (v f : Transaction) : List Transaction → Option (List SandwichAttack)
  | [] => some []
  | b :: rest =>
    match checkBackrun v f b, innerLoop v f rest with
    | some h, some t => some (h ++ t)
    | _, _ => none

/-- The middle loop of `detect_mev`: iterate `potential_frontrun` over the whole
batch; `continue` unless it is router-bound, has a different sender than the
victim, and a strictly higher gas price. -/
def midLoop (v : Transaction) (txs : List Transaction) :
    List Transaction → Option (List SandwichAttack)
  | [] => some []
  | f :: rest =>
    if f.«to» ≠ some UNISWAP_V2_ROUTER ∨ f.sender = v.sender ∨
        f.gas_price ≤ v.gas_price then
      midLoop v txs rest
    else
      match innerLoop v f txs, midLoop v txs rest with
      | some h, some t => some (h ++ t)
      | _, _ => none

/-- The outer loop of `detect_mev`: iterate `potential_victim` over the batch;
`continue` unless it is router-bound. -/
def outerLoop (txs : List Transaction) :
    List Transaction → Option (List SandwichAttack)
  | [] => some []
  | v :: rest =>
    if v.«to» ≠ some UNISWAP_V2_ROUTER then
      outerLoop txs rest
    else
      match midLoop v txs txs, outerLoop txs rest with
      | some h, some t => some (h ++ t)
      | _, _ => none

/-- The `tx_map` built at the start of `detect_mev`: the hash-keyed index
collected from `(tx.hash.clone(), tx.clone())` pairs, as an association list. -/
def tx_map (txs : List Transaction) : List (String × Transaction) :=
  txs.map fun tx => (tx.hash, tx)

/-- The core of `detect_mev` after a successful decode: build the hash index
(never consulted afterwards, exactly as in the source) and run the triple
nested loop. `none` models a panic escaping the call. -/
def detect (txs : List Transaction) : Option (List SandwichAttack) :=
  let _tx_map := tx_map txs
  outerLoop txs txs

/-- The same triple loop with the map-building step removed (the variant that
claim C9 compares against). -/
def detect_noIndex (txs : List Transaction) : Option (List SandwichAttack) :=
  outerLoop txs txs

/-- `pub fn detect_mev(tx_batch_json: &str) -> String` at the boundary: the
`serde_json::from_str` decode is external library code and is abstracted as the
`Option (List Transaction)` it produces; on decode failure (`none`) the source
returns `"[]"`, i.e. the serialization of the empty attack list, modelled as
`some []`. Otherwise the core detection runs (and may panic: `none`). -/
def detect_mev (decoded : Option (List Transaction)) :
    Option (List SandwichAttack) :=
  match decoded with
  | none => some []
  | some txs => detect txs

/-! ## Spec-side definitions (for the refinement-style comparisons) -/

/-- The last 64 characters of `s` (the spec's last "token slot"). -/
def tailSlot1 (s : String) : String := strTake s (s.length - 64) s.length

/-- The second-to-last 64-character slot of `s`: characters
`[len − 128, len − 64)` (the spec's wording, read with truncating `Nat`
subtraction so that it is total, as the claim takes the extraction to be). -/
def tailSlot2 (s : String) : String := strTake s (s.length - 128) (s.length - 64)

/-- Claim C2's statement of the path predicate, taken at its word: `false` when
either string is shorter than 74 characters, otherwise the reversed comparison
of the two tail slots — a total boolean function. -/
def path_matches_claimC2 (f b : String) : Bool :=
  if f.length < 74 ∨ b.length < 74 then false
  else (tailSlot2 f == tailSlot1 b) && (tailSlot1 f == tailSlot2 b)

/-! ## Concrete transactions (spec §8 Scenario A, and a panic-triggering batch) -/

/-- 64 repetitions of `a`: the first token-slot constant of Scenario A. -/
def tokenA : String := String.mk (List.replicate 64 'a')

/-- 64 repetitions of `b`: the second token-slot constant of Scenario A. -/
def tokenB : String := String.mk (List.replicate 64 'b')

/-- Scenario A victim: router-bound, gas price 10. -/
def txV : Transaction :=
  { hash := "0xv", sender := 1, «to» := some UNISWAP_V2_ROUTER, value := 0
    data := "0xdeadbeef", gas_price := 10 }

/-- Scenario A front-run: router-bound, gas price 20, sender 2, tail slots
`[tokenA, tokenB]`. -/
def txF : Transaction :=
  { hash := "0xf", sender := 2, «to» := some UNISWAP_V2_ROUTER, value := 0
    data := "0x" ++ tokenA ++ tokenB, gas_price := 20 }

/-- Scenario A back-run: not router-bound, gas price 5, same sender 2, tail
slots `[tokenB, tokenA]` (the reverse of the front-run's). -/
def txB : Transaction :=
  { hash := "0xb", sender := 2, «to» := none, value := 0
    data := "0x" ++ tokenB ++ tokenA, gas_price := 5 }

/-- The single attack Scenario A must produce. -/
def attackA : SandwichAttack :=
  { victim_tx_hash := "0xv", attacker := 2
    frontrun_tx_hash := "0xf", backrun_tx_hash := "0xb" }

/-- A 74-character string: it passes the `len < 74` guard of
`a_b_a_path_matches` but is too short for the `len - 128` slice offset. -/
def s74 : String := String.mk (List.replicate 74 'a')

/-- Victim of the panic-triggering batch. -/
def txV2 : Transaction :=
  { hash := "0xv2", sender := 1, «to» := some UNISWAP_V2_ROUTER, value := 0
    data := "0xdeadbeef", gas_price := 10 }

/-- Front-run candidate whose call data has length exactly 74. -/
def txF2 : Transaction :=
  { hash := "0xf2", sender := 2, «to» := some UNISWAP_V2_ROUTER, value := 0
    data := s74, gas_price := 20 }

/-- Back-run candidate whose call data has length exactly 74. -/
def txB2 : Transaction :=
  { hash := "0xb2", sender := 2, «to» := none, value := 0
    data := s74, gas_price := 5 }

end MevDetector

namespace MevDetector

theorem usizeSub_eq_some {a b : Nat} (h : b ≤ a) : usizeSub a b = some (a - b) :=
  if_pos h

theorem usizeSub_eq_none {a b : Nat} (h : a < b) : usizeSub a b = none :=
  if_neg (by omega)

theorem strSlice_eq_some {s : String} {a b : Nat} (h1 : a ≤ b) (h2 : b ≤ s.length) :
    strSlice s a b = some (strTake s a b) :=
  if_pos ⟨h1, h2⟩

theorem a_b_a_short {f b : String} (h : f.length < 74 ∨ b.length < 74) :
    a_b_a_path_matches f b = some false := by
  unfold a_b_a_path_matches
  rw [if_pos h]

theorem a_b_a_mid {f b : String} (hf : 74 ≤ f.length) (hb : 74 ≤ b.length)
    (h : f.length < 128 ∨ b.length < 128) :
    a_b_a_path_matches f b = none := by
  unfold a_b_a_path_matches
  rw [if_neg (by omega)]
  by_cases hf128 : 128 ≤ f.length
  · have hb128 : b.length < 128 := by omega
    rw [usizeSub_eq_some hf128]
    simp only [Option.bind_eq_bind, Option.some_bind]
    rw [usizeSub_eq_some (by omega)]
    simp only [Option.bind_eq_bind, Option.some_bind]
    rw [strSlice_eq_some (by omega) (by omega)]
    simp only [Option.bind_eq_bind, Option.some_bind]
    rw [strSlice_eq_some (by omega) (by omega)]
    simp only [Option.bind_eq_bind, Option.some_bind]
    rw [usizeSub_eq_none hb128]
    rfl
  · rw [usizeSub_eq_none (by omega)]
    rfl

theorem a_b_a_long {f b : String} (hf : 128 ≤ f.length) (hb : 128 ≤ b.length) :
    a_b_a_path_matches f b =
      some ((tailSlot2 f == tailSlot1 b) && (tailSlot1 f == tailSlot2 b)) := by
  unfold a_b_a_path_matches
  rw [if_neg (by omega)]
  rw [usizeSub_eq_some hf]
  simp only [Option.bind_eq_bind, Option.some_bind]
  rw [usizeSub_eq_some (by omega)]
  simp only [Option.bind_eq_bind, Option.some_bind]
  rw [strSlice_eq_some (by omega) (by omega)]
  simp only [Option.bind_eq_bind, Option.some_bind]
  rw [strSlice_eq_some (by omega) (by omega)]
  simp only [Option.bind_eq_bind, Option.some_bind]
  rw [usizeSub_eq_some hb]
  simp only [Option.bind_eq_bind, Option.some_bind]
  rw [usizeSub_eq_some (by omega)]
  simp only [Option.bind_eq_bind, Option.some_bind]
  rw [strSlice_eq_some (by omega) (by omega)]
  simp only [Option.bind_eq_bind, Option.some_bind]
  rw [strSlice_eq_some (by omega) (by omega)]
  rfl

end MevDetector

namespace MevDetector

/-- Everything the innermost loop guarantees about an attack it pushes for a
fixed victim `v` and front-run `f`. -/
def BackrunWitness (v f : Transaction) (txs : List Transaction)
    (a : SandwichAttack) : Prop :=
  ∃ b ∈ txs, b.sender = f.sender ∧ b.gas_price < v.gas_price ∧
    a_b_a_path_matches f.data b.data = some true ∧ a = mkAttack v f b

theorem checkBackrun_sound {v f b : Transaction} {l : List SandwichAttack}
    (h : checkBackrun v f b = some l) :
    ∀ a ∈ l, b.sender = f.sender ∧ b.gas_price < v.gas_price ∧
      a_b_a_path_matches f.data b.data = some true ∧ a = mkAttack v f b := by
  unfold checkBackrun at h
  split at h
  · cases h
    simp
  · next hcond =>
    push_neg at hcond
    split at h
    · exact Option.noConfusion h
    · next heq =>
      cases h
      intro a ha
      simp only [List.mem_singleton] at ha
      exact ⟨hcond.1, hcond.2, heq, ha⟩
    · cases h
      simp

theorem innerLoop_sound {v f : Transaction} {bs : List Transaction}
    {l : List SandwichAttack} (h : innerLoop v f bs = some l) :
    ∀ a ∈ l, BackrunWitness v f bs a := by
  induction bs generalizing l with
  | nil =>
    simp only [innerLoop] at h
    cases h
    simp
  | cons b rest ih =>
    simp only [innerLoop] at h
    split at h
    · next h1 h2 =>
      cases h
      intro a ha
      rcases List.mem_append.1 ha with ha | ha
      · obtain ⟨hs, hg, hm, hae⟩ := checkBackrun_sound h1 a ha
        exact ⟨b, List.mem_cons_self b rest, hs, hg, hm, hae⟩
      · obtain ⟨b', hb', hw⟩ := ih h2 a ha
        exact ⟨b', List.mem_cons_of_mem _ hb', hw⟩
    · exact Option.noConfusion h

end MevDetector

namespace MevDetector

/-- Everything the triple nested loop guarantees about one emitted attack:
the three transactions it was built from, with all the filter conditions the
loops checked on the way to the push. -/
def EmittedFrom (txs : List Transaction) (a : SandwichAttack) : Prop :=
  ∃ v ∈ txs, ∃ f ∈ txs, ∃ b ∈ txs,
    v.«to» = some UNISWAP_V2_ROUTER ∧ f.«to» = some UNISWAP_V2_ROUTER ∧
    f.sender ≠ v.sender ∧ v.gas_price < f.gas_price ∧
    b.sender = f.sender ∧ b.gas_price < v.gas_price ∧
    a_b_a_path_matches f.data b.data = some true ∧
    a = mkAttack v f b

theorem midLoop_sound {v : Transaction} {txs fs : List Transaction}
    {l : List SandwichAttack} (h : midLoop v txs fs = some l) :
    ∀ a ∈ l, ∃ f ∈ fs, f.«to» = some UNISWAP_V2_ROUTER ∧ f.sender ≠ v.sender ∧
      v.gas_price < f.gas_price ∧ BackrunWitness v f txs a := by
  induction fs generalizing l with
  | nil =>
    simp only [midLoop] at h
    cases h
    simp
  | cons f rest ih =>
    simp only [midLoop] at h
    split at h
    · intro a ha
      obtain ⟨f', hf', hw⟩ := ih h a ha
      exact ⟨f', List.mem_cons_of_mem _ hf', hw⟩
    · next hcond =>
      push_neg at hcond
      split at h
      · next h1 h2 =>
        cases h
        intro a ha
        rcases List.mem_append.1 ha with ha | ha
        · exact ⟨f, List.mem_cons_self f rest, hcond.1, hcond.2.1,
            hcond.2.2, innerLoop_sound h1 a ha⟩
        · obtain ⟨f', hf', hw⟩ := ih h2 a ha
          exact ⟨f', List.mem_cons_of_mem _ hf', hw⟩
      · exact Option.noConfusion h

theorem outerLoop_sound {txs vs : List Transaction} {l : List SandwichAttack}
    (h : outerLoop txs vs = some l) :
    ∀ a ∈ l, ∃ v ∈ vs, v.«to» = some UNISWAP_V2_ROUTER ∧
      ∃ f ∈ txs, f.«to» = some UNISWAP_V2_ROUTER ∧ f.sender ≠ v.sender ∧
        v.gas_price < f.gas_price ∧ BackrunWitness v f txs a := by
  induction vs generalizing l with
  | nil =>
    simp only [outerLoop] at h
    cases h
    simp
  | cons v rest ih =>
    simp only [outerLoop] at h
    split at h
    · intro a ha
      obtain ⟨v', hv', hw⟩ := ih h a ha
      exact ⟨v', List.mem_cons_of_mem _ hv', hw⟩
    · next hcond =>
      push_neg at hcond
      split at h
      · next h1 h2 =>
        cases h
        intro a ha
        rcases List.mem_append.1 ha with ha | ha
        · obtain ⟨f, hf, hw⟩ := midLoop_sound h1 a ha
          exact ⟨v, List.mem_cons_self v rest, hcond, f, hf, hw⟩
        · obtain ⟨v', hv', hw⟩ := ih h2 a ha
          exact ⟨v', List.mem_cons_of_mem _ hv', hw⟩
      · exact Option.noConfusion h

theorem detect_sound {txs : List Transaction} {l : List SandwichAttack}
    (h : detect txs = some l) : ∀ a ∈ l, EmittedFrom txs a := by
  intro a ha
  obtain ⟨v, hv, hvr, f, hf, hfr, hfs, hfg, b, hb, hbs, hbg, hm, hae⟩ :=
    outerLoop_sound h a ha
  exact ⟨v, hv, f, hf, b, hb, hvr, hfr, hfs, hfg, hbs, hbg, hm, hae⟩

end MevDetector

namespace MevDetector

set_option maxRecDepth 10000

theorem hash_inj {txs : List Transaction}
    (hn : (txs.map Transaction.hash).Nodup) {x y : Transaction}
    (hx : x ∈ txs) (hy : y ∈ txs) (h : x.hash = y.hash) : x = y :=
  List.inj_on_of_nodup_map hn hx hy h

/-- C1: the spec claims `detect_mev` is total and `a_b_a_path_matches` returns
a boolean for every pair of data strings passing its `len < 74` guard. The code
violates this: a 74-character data string passes the guard, but the slice
offset `len - 128` then underflows and the function panics, aborting the whole
`detect_mev` call — shown here at the concrete failing batch
`[txV2, txF2, txB2]` (both candidate data strings have length 74). -/
theorem C1_panics_despite_guard :
    ¬ (s74.length < 74) ∧ a_b_a_path_matches s74 s74 = none ∧
    detect [txV2, txF2, txB2] = none := by
  refine ⟨by decide, by decide, by decide⟩

/-- C2 counterexample: at two 74-character data strings (which pass the
`len < 74` guard) the claim's described behaviour — extract the two tail slots
and compare them reversed, yielding a boolean — differs from the code, which
panics (`none`) on the underflowing slice offset. -/
theorem C2_counterexample :
    a_b_a_path_matches s74 s74 ≠ some (path_matches_claimC2 s74 s74) := by
  decide

/-- C2 (amended): the predicate returns `false` whenever either data string has
length < 74; when both lengths are ≥ 74 but either is < 128 the slice offset
`len - 128` underflows and the call panics instead of returning; when both
lengths are ≥ 128 it extracts the last two 64-character slots of each string
and returns `true` iff `frontA == backB` and `frontB == backA`. -/
theorem C2_path_predicate_amended (f b : String) :
    (f.length < 74 ∨ b.length < 74 → a_b_a_path_matches f b = some false) ∧
    (74 ≤ f.length → 74 ≤ b.length → f.length < 128 ∨ b.length < 128 →
      a_b_a_path_matches f b = none) ∧
    (128 ≤ f.length → 128 ≤ b.length →
      a_b_a_path_matches f b =
        some ((tailSlot2 f == tailSlot1 b) && (tailSlot1 f == tailSlot2 b))) :=
  ⟨a_b_a_short, fun h1 h2 h3 => a_b_a_mid h1 h2 h3,
    fun h1 h2 => a_b_a_long h1 h2⟩

/-- Witness for C2 at Scenario A's front-run and back-run call data (both of
length 130 ≥ 128): the predicate evaluates to the reversed-slot comparison. -/
theorem C2_path_predicate_amended_witness :
    a_b_a_path_matches txF.data txB.data =
      some ((tailSlot2 txF.data == tailSlot1 txB.data) &&
        (tailSlot1 txF.data == tailSlot2 txB.data)) :=
  (C2_path_predicate_amended txF.data txB.data).2.2 (by decide) (by decide)

/-- C3: every emitted attack was built from transactions `v`, `f`, `b` of the
batch whose gas prices satisfy the strict chain
`f.gas_price > v.gas_price > b.gas_price`. -/
theorem C3_gas_ordering {txs : List Transaction} {l : List SandwichAttack}
    (h : detect txs = some l) : ∀ a ∈ l,
    ∃ v ∈ txs, ∃ f ∈ txs, ∃ b ∈ txs, a = mkAttack v f b ∧
      f.gas_price > v.gas_price ∧ v.gas_price > b.gas_price := by
  intro a ha
  obtain ⟨v, hv, f, hf, b, hb, _, _, _, hfg, _, hbg, _, hae⟩ :=
    detect_sound h a ha
  exact ⟨v, hv, f, hf, b, hb, hae, hfg, hbg⟩

/-- Witness for C3: Scenario A's single attack, gas prices 20 > 10 > 5. -/
theorem C3_gas_ordering_witness :
    ∃ v ∈ [txV, txF, txB], ∃ f ∈ [txV, txF, txB], ∃ b ∈ [txV, txF, txB],
      attackA = mkAttack v f b ∧ f.gas_price > v.gas_price ∧
      v.gas_price > b.gas_price :=
  C3_gas_ordering (show detect [txV, txF, txB] = some [attackA] by decide)
    attackA (by decide)

/-- C4: for every emitted attack, the front-run and back-run transactions it
was built from have the same sender, and that sender is the emitted `attacker`
field. -/
theorem C4_same_attacker {txs : List Transaction} {l : List SandwichAttack}
    (h : detect txs = some l) : ∀ a ∈ l,
    ∃ f ∈ txs, ∃ b ∈ txs, a.frontrun_tx_hash = f.hash ∧
      a.backrun_tx_hash = b.hash ∧ f.sender = b.sender ∧
      a.attacker = f.sender ∧ a.attacker = b.sender := by
  intro a ha
  obtain ⟨v, hv, f, hf, b, hb, _, _, _, _, hbs, _, _, hae⟩ :=
    detect_sound h a ha
  subst hae
  exact ⟨f, hf, b, hb, rfl, rfl, hbs.symm, rfl, hbs.symm⟩

/-- Witness for C4: Scenario A's single attack, attacker 2 = sender of both
`txF` and `txB`. -/
theorem C4_same_attacker_witness :
    ∃ f ∈ [txV, txF, txB], ∃ b ∈ [txV, txF, txB],
      attackA.frontrun_tx_hash = f.hash ∧ attackA.backrun_tx_hash = b.hash ∧
      f.sender = b.sender ∧ attackA.attacker = f.sender ∧
      attackA.attacker = b.sender :=
  C4_same_attacker (show detect [txV, txF, txB] = some [attackA] by decide)
    attackA (by decide)

/-- C5: every emitted attack was built from a victim and a front-run that both
target the fixed router address; the back-run is not required to be
router-bound — Scenario A's back-run `txB` has `to = none` and the attack is
still emitted. -/
theorem C5_router_bound :
    (∀ (txs : List Transaction) (l : List SandwichAttack),
      detect txs = some l → ∀ a ∈ l,
      ∃ v ∈ txs, ∃ f ∈ txs, ∃ b ∈ txs, a = mkAttack v f b ∧
        v.«to» = some UNISWAP_V2_ROUTER ∧ f.«to» = some UNISWAP_V2_ROUTER) ∧
    (detect [txV, txF, txB] = some [attackA] ∧
      txB.«to» ≠ some UNISWAP_V2_ROUTER) := by
  constructor
  · intro txs l h a ha
    obtain ⟨v, hv, f, hf, b, hb, hvr, hfr, _, _, _, _, _, hae⟩ :=
      detect_sound h a ha
    exact ⟨v, hv, f, hf, b, hb, hae, hvr, hfr⟩
  · exact ⟨by decide, by decide⟩

/-- Witness for C5: the universal part applied to Scenario A. -/
theorem C5_router_bound_witness :
    ∃ v ∈ [txV, txF, txB], ∃ f ∈ [txV, txF, txB], ∃ b ∈ [txV, txF, txB],
      attackA = mkAttack v f b ∧ v.«to» = some UNISWAP_V2_ROUTER ∧
      f.«to» = some UNISWAP_V2_ROUTER :=
  C5_router_bound.1 [txV, txF, txB] [attackA] (by decide) attackA (by decide)

/-- C6: when hashes are unique within the batch, no emitted attack reuses the
victim as its own front-run or back-run: the front-run (resp. back-run) has a
strictly higher (resp. lower) gas price than the victim, so it is a different
transaction, hence a different hash. -/
theorem C6_no_self_match {txs : List Transaction} {l : List SandwichAttack}
    (h : detect txs = some l) (hn : (txs.map Transaction.hash).Nodup) :
    ∀ a ∈ l, a.frontrun_tx_hash ≠ a.victim_tx_hash ∧
      a.backrun_tx_hash ≠ a.victim_tx_hash := by
  intro a ha
  obtain ⟨v, hv, f, hf, b, hb, _, _, _, hfg, _, hbg, _, hae⟩ :=
    detect_sound h a ha
  subst hae
  constructor
  · intro hEq
    have hfv : f = v := hash_inj hn hf hv hEq
    rw [hfv] at hfg
    exact lt_irrefl _ hfg
  · intro hEq
    have hbv : b = v := hash_inj hn hb hv hEq
    rw [hbv] at hbg
    exact lt_irrefl _ hbg

/-- Witness for C6: Scenario A has pairwise distinct hashes, and its single
attack's front-run and back-run hashes differ from the victim's. -/
theorem C6_no_self_match_witness :
    attackA.frontrun_tx_hash ≠ attackA.victim_tx_hash ∧
    attackA.backrun_tx_hash ≠ attackA.victim_tx_hash :=
  C6_no_self_match (show detect [txV, txF, txB] = some [attackA] by decide)
    (by decide) attackA (by decide)

/-- C7: when the JSON decode of the input fails, `detect_mev` returns the empty
attack list (the list the boundary serializes as `"[]"`), not an error. -/
theorem C7_decode_failure_empty : detect_mev none = some [] := rfl

/-- C8 (spec Scenario A): on the three-transaction batch `[txV, txF, txB]` —
victim `txV` (router-bound, gas 10), front-run `txF` (router-bound, gas 20,
sender 2, tail slots `[tokenA, tokenB]`), back-run `txB` (gas 5, sender 2,
tail slots `[tokenB, tokenA]`) — the detector emits exactly the one attack
`attackA = {victim 0xv, attacker 2, frontrun 0xf, backrun 0xb}`. -/
theorem C8_scenarioA : detect [txV, txF, txB] = some [attackA] := by decide

/-- C9: the hash-keyed `tx_map` built at the start of `detect` is never
consulted by the matching loops: removing the map-building step yields exactly
the same result on every batch. -/
theorem C9_index_unused (txs : List Transaction) :
    detect txs = detect_noIndex txs := rfl

/-- C10: the path-matching heuristic is symmetric in its two arguments —
including on the panic region, since the guard and the panicking offsets are
checked symmetrically, and on the long region because the reversed-slot
comparison is invariant under swapping the two strings. -/
theorem C10_path_symm (f b : String) :
    a_b_a_path_matches f b = a_b_a_path_matches b f := by
  by_cases hshort : f.length < 74 ∨ b.length < 74
  · rw [a_b_a_short hshort, a_b_a_short (Or.symm hshort)]
  · push_neg at hshort
    by_cases hmid : f.length < 128 ∨ b.length < 128
    · rw [a_b_a_mid hshort.1 hshort.2 hmid,
        a_b_a_mid hshort.2 hshort.1 (Or.symm hmid)]
    · push_neg at hmid
      rw [a_b_a_long hmid.1 hmid.2, a_b_a_long hmid.2 hmid.1]
      rw [Bool.beq_comm (a := tailSlot2 f) (b := tailSlot1 b),
        Bool.beq_comm (a := tailSlot1 f) (b := tailSlot2 b), Bool.and_comm]

end MevDetector
